import Mathlib

/-!
Verification development for the governance pipeline of an AI-agent runtime:
RBAC role hierarchy and capability checks (src/rbac/rbac.ts), the ordered
policy hook chain (src/plugin/policy.ts), the per-session budget tracker,
the audit trail with truncation and retention, the secret-redaction engine,
and the parallel subagent dispatcher (src/tool/parallel-task.ts).

Strings from the runtime are modelled as Lean `String`s; JavaScript string
indices are modelled on `String.data` (the list of characters), which agrees
with JS code-unit indexing on the basic-multilingual-plane inputs used here.
Machine time (`Date.now()`) is passed in explicitly as a `Nat` of
milliseconds.  Fallible external effects (database insert, event publish,
session creation, the subagent prompt loop) are passed in as `Except`
oracles, so that catch blocks and partial failure are visible in the model.
-/

/-- ASCII lower-casing of a character, as used by JS `toLowerCase` on the
ASCII inputs of the policy configuration. -/
def lowerChar (c : Char) : Char := c.toLower

/-- Lower-case an entire string (models `String.prototype.toLowerCase`). -/
def lowerStr (s : String) : String := String.mk (s.data.map lowerChar)

/-- Does list `pre` occur as a prefix of `l`? -/
def isPfx : List Char → List Char → Bool
  | [], _ => true
  | _ :: _, [] => false
  | a :: pre, b :: l => a == b && isPfx pre l

/-- Does `pat` occur as a contiguous sublist of `hay`?  Models JS
`String.prototype.includes`. -/
def containsSub (hay pat : List Char) : Bool :=
  match hay with
  | [] => isPfx pat []
  | _ :: rest => isPfx pat hay || containsSub rest pat

/-- `String.includes` on strings. -/
def strIncludes (hay pat : String) : Bool := containsSub hay.data pat.data

/-- Index of the first occurrence of `pat` in `hay` (JS `String.indexOf`). -/
def firstIdx (hay pat : List Char) : Option Nat :=
  match hay with
  | [] => if isPfx pat [] then some 0 else none
  | _ :: rest =>
    if isPfx pat hay then some 0
    else (firstIdx rest pat).map (· + 1)

/-- JS `String.prototype.replace` with a plain string pattern: replace the
first occurrence of `pat` in `hay` by `repl`, or return `hay` unchanged when
`pat` does not occur. -/
def replaceFirstL (hay pat repl : List Char) : List Char :=
  match firstIdx hay pat with
  | none => hay
  | some i => hay.take i ++ repl ++ hay.drop (i + pat.length)

-- ═══════════════════════════════════════════════════════════════════════
-- RBAC (src/core/packages/opencode/src/rbac/rbac.ts)
-- ═══════════════════════════════════════════════════════════════════════

namespace RBAC

/-- The three roles, `z.enum(["viewer", "employee", "admin"])`. -/
inductive Role where
  | viewer
  | employee
  | admin
deriving DecidableEq, Repr

/-- `HIERARCHY: Record<Role, number> = { viewer: 0, employee: 1, admin: 2 }`. -/
def HIERARCHY : Role → Nat
  | .viewer => 0
  | .employee => 1
  | .admin => 2

/-- The `User` object bound by the auth middleware. -/
structure User where
  id : String
  email : Option String := none
  name : Option String := none
  role : Role
deriving DecidableEq, Repr

/-- `hasRole(user, required) = HIERARCHY[user.role] >= HIERARCHY[required]`. -/
def hasRole (user : User) (required : Role) : Bool :=
  HIERARCHY user.role ≥ HIERARCHY required

/-- The static `CAPABILITIES` capability → minimum-role map.  A capability
absent from the map yields `none` (the code then falls back to
`"employee"` via `?? "employee"`). -/
def CAPABILITIES : String → Option Role
  | "session.create" => some .employee
  | "session.read" => some .viewer
  | "session.delete" => some .admin
  | "audit.read" => some .admin
  | "config.read" => some .viewer
  | "config.write" => some .admin
  | "tool.bash" => some .employee
  | "tool.write" => some .employee
  | "tool.edit" => some .employee
  | "tool.read" => some .viewer
  | "tool.grep" => some .viewer
  | "tool.glob" => some .viewer
  | "tool.list" => some .viewer
  | "tool.task" => some .employee
  | "tool.webfetch" => some .employee
  | "tool.websearch" => some .employee
  | "provider.read" => some .viewer
  | "provider.auth" => some .admin
  | "mcp.read" => some .viewer
  | "mcp.write" => some .admin
  | _ => none

/-- The `CAPABILITIES[capability] ?? "employee"` fallback inside `can` and
`assertCan`. -/
def requiredRole (capability : String) : Role :=
  (CAPABILITIES capability).getD .employee

/-- `RBAC.can(capability)`: reads the identity context (modelled as the
`current` argument); unauthenticated yields `false`. -/
def can (current : Option User) (capability : String) : Bool :=
  match current with
  | none => false
  | some user => hasRole user (requiredRole capability)

end RBAC

-- ═══════════════════════════════════════════════════════════════════════
-- Policy evaluator (src/core/packages/opencode/src/plugin/policy.ts)
-- ═══════════════════════════════════════════════════════════════════════

namespace Policy

/-- `PolicyConfig`: the optional arrays behave identically to empty arrays
under `?.includes` / `?.length`, so they are modelled as plain lists. -/
structure PolicyConfig where
  deny_tools : List String := []
  viewer_deny_tools : List String := []
  employee_deny_tools : List String := []
  deny_patterns : List String := []
  require_approval_tools : List String := []
deriving Repr

/-- `isToolDenied(toolName, role, policy)`: global deny list first, then
role-specific lists. -/
def isToolDenied (toolName : String) (role : RBAC.Role) (policy : PolicyConfig) :
    Option String :=
  if policy.deny_tools.contains toolName then
    some ("Tool \"" ++ toolName ++ "\" is denied by policy")
  else if role == RBAC.Role.viewer && policy.viewer_deny_tools.contains toolName then
    some ("Tool \"" ++ toolName ++ "\" is denied for viewers")
  else if role == RBAC.Role.employee && policy.employee_deny_tools.contains toolName then
    some ("Tool \"" ++ toolName ++ "\" is denied for employees")
  else
    none

/-- The `for (const pattern of policy.deny_patterns)` loop body of
`containsDeniedPattern`: first pattern whose lower-casing occurs in the
(lower-cased, serialized) input wins. -/
def denyPatternLoop (input : String) : List String → Option String
  | [] => none
  | pattern :: rest =>
    if strIncludes input (lowerStr pattern) then
      some ("Input contains denied pattern: \"" ++ pattern ++ "\"")
    else
      denyPatternLoop input rest

/-- `containsDeniedPattern(metadata, policy)`.  The serialized form of the
request metadata (`JSON.stringify(metadata)`) is taken as the input string. -/
def containsDeniedPattern (metaSerialized : String) (policy : PolicyConfig) :
    Option String :=
  if policy.deny_patterns.isEmpty then none
  else denyPatternLoop (lowerStr metaSerialized) policy.deny_patterns

/-- Outcome of the `permission.ask` hook on `output.status`: `deny` and
`allow` set the status; `pending` is the approval-required early return
(status stays "ask"); `unresolved` is the final fall-through (status left
for the caller's default). -/
inductive Decision where
  | deny (reason : String)
  | allow
  | pending
  | unresolved
deriving DecidableEq, Repr

/-- The input of the `permission.ask` hook, keeping the fields the hook
reads: `input.type`, `input.metadata.tool`, and the serialized metadata
used for pattern matching. -/
structure AskInput where
  type : String
  metadataTool : Option String := none
  metaSerialized : String := ""
deriving Repr

/-- `(input.metadata?.tool as string) ?? input.type`. -/
def toolNameOf (i : AskInput) : String := i.metadataTool.getD i.type

/-- Printed form of a role, as interpolated into the deny reason. -/
def roleStr : RBAC.Role → String
  | .viewer => "viewer"
  | .employee => "employee"
  | .admin => "admin"

/-- Rules 2–6 of the `permission.ask` hook (everything after the RBAC
viewer check). -/
def askAfterRbac (user : Option RBAC.User) (policy : PolicyConfig)
    (i : AskInput) : Decision :=
  let toolName := toolNameOf i
  let role := (user.map (·.role)).getD RBAC.Role.viewer
  match isToolDenied toolName role policy with
  | some denyReason => .deny denyReason
  | none =>
    match containsDeniedPattern i.metaSerialized policy with
    | some patternReason => .deny patternReason
    | none =>
      if policy.require_approval_tools.contains toolName then .pending
      else if (user.map (·.role)) == some RBAC.Role.admin then .allow
      else .unresolved

/-- The `permission.ask` hook.  The viewer/`tool.execute` RBAC check runs
only when a user is bound, exactly as in the source (`if (user) { ... }`). -/
def permissionAsk (user : Option RBAC.User) (policy : PolicyConfig)
    (i : AskInput) : Decision :=
  match user with
  | some u =>
    if u.role == RBAC.Role.viewer && !(RBAC.can (some u) "tool.execute") then
      .deny ("Role \"" ++ roleStr u.role ++ "\" cannot execute tools")
    else
      askAfterRbac (some u) policy i
  | none => askAfterRbac none policy i

/-- Output flags of the `tool.execute.before` hook (`__policyDenied`,
`__policyReason`). -/
structure ExecBeforeOut where
  policyDenied : Bool
  policyReason : Option String
deriving DecidableEq, Repr

/-- The `tool.execute.before` hook: deny-list check only, with the
unauthenticated role defaulting to viewer. -/
def toolExecuteBefore (user : Option RBAC.User) (policy : PolicyConfig)
    (tool : String) : ExecBeforeOut :=
  let role := (user.map (·.role)).getD RBAC.Role.viewer
  match isToolDenied tool role policy with
  | some denyReason => ⟨true, some denyReason⟩
  | none => ⟨false, none⟩

-- ── Specification-level reformulation of the ask chain ────────────────
-- The following definitions restate section 4.2 of the specification as an
-- ordered list of (guard, outcome) rules evaluated first-match-first, to be
-- compared with the implementation above.

/-- Role-specific deny list of the specification's rule 3. -/
def roleDenyList (role : RBAC.Role) (policy : PolicyConfig) : List String :=
  match role with
  | .viewer => policy.viewer_deny_tools
  | .employee => policy.employee_deny_tools
  | .admin => []

/-- The deny reason texts of the role-specific lists (rule 3); the admin
role has no role-specific deny list, so its guard never fires and its
reason is irrelevant. -/
def roleDenyReason (toolName : String) (role : RBAC.Role) : String :=
  match role with
  | .viewer => "Tool \"" ++ toolName ++ "\" is denied for viewers"
  | .employee => "Tool \"" ++ toolName ++ "\" is denied for employees"
  | .admin => ""

/-- Spec rule 4: the first configured pattern occurring case-insensitively
in the serialized metadata. -/
def specFirstPattern (metaSerialized : String) (policy : PolicyConfig) :
    Option String :=
  policy.deny_patterns.find? (fun pattern =>
    strIncludes (lowerStr metaSerialized) (lowerStr pattern))

/-- The six rules of specification §4.2, in order, each as a guard paired
with the outcome produced when the guard fires. -/
def askRules (user : Option RBAC.User) (policy : PolicyConfig)
    (i : AskInput) : List (Bool × Decision) :=
  let toolName := toolNameOf i
  let role := (user.map (·.role)).getD RBAC.Role.viewer
  [ ((user.map (·.role)) == some RBAC.Role.viewer
       && !(RBAC.can user "tool.execute"),
     .deny ("Role \"viewer\" cannot execute tools")),
    (policy.deny_tools.contains toolName,
     .deny ("Tool \"" ++ toolName ++ "\" is denied by policy")),
    ((roleDenyList role policy).contains toolName,
     .deny (roleDenyReason toolName role)),
    ((specFirstPattern i.metaSerialized policy).isSome,
     .deny ("Input contains denied pattern: \""
        ++ (specFirstPattern i.metaSerialized policy).getD "" ++ "\"")),
    (policy.require_approval_tools.contains toolName, .pending),
    ((user.map (·.role)) == some RBAC.Role.admin, .allow) ]

/-- First-match-wins evaluation of an ordered rule list; no rule firing
leaves the decision unresolved. -/
def firstFiring : List (Bool × Decision) → Decision
  | [] => .unresolved
  | (guard, outcome) :: rest => if guard then outcome else firstFiring rest

end Policy

-- ═══════════════════════════════════════════════════════════════════════
-- Budget tracker (src/session/budget.ts, second segment of rbac.ts bundle)
-- ═══════════════════════════════════════════════════════════════════════

namespace Budget

/-- `Budget.Limits`; a missing field is `none`.  A field explicitly set to
`0` is distinct from a missing one but both are falsy in the checks. -/
structure Limits where
  maxToolCalls : Option Nat := none
  maxTokens : Option Nat := none
  timeoutMs : Option Nat := none
deriving DecidableEq, Repr

/-- `Budget.State`. -/
structure State where
  toolCalls : Nat
  totalTokens : Nat
  startTime : Nat
  limits : Limits
deriving DecidableEq, Repr

/-- `Budget.create(limits)`; `Date.now()` is the explicit `now`. -/
def create (limits : Limits) (now : Nat) : State :=
  { toolCalls := 0, totalTokens := 0, startTime := now, limits := limits }

/-- `Budget.recordToolCall`. -/
def recordToolCall (s : State) : State := { s with toolCalls := s.toolCalls + 1 }

/-- `Budget.recordTokens`. -/
def recordTokens (s : State) (tokens : Nat) : State :=
  { s with totalTokens := s.totalTokens + tokens }

/-- First clause of `check`: `if (limits.maxToolCalls && toolCalls >= limits.maxToolCalls)`.
The JS truthiness of the limit makes both a missing and a zero limit skip
the clause. -/
def checkToolCalls (s : State) : Option String :=
  match s.limits.maxToolCalls with
  | some m =>
    if m != 0 && decide (s.toolCalls ≥ m) then
      some ("Tool call budget exceeded: " ++ toString s.toolCalls ++ "/" ++ toString m)
    else none
  | none => none

/-- Second clause of `check` (token ceiling). -/
def checkTokens (s : State) : Option String :=
  match s.limits.maxTokens with
  | some m =>
    if m != 0 && decide (s.totalTokens ≥ m) then
      some ("Token budget exceeded: " ++ toString s.totalTokens ++ "/" ++ toString m)
    else none
  | none => none

/-- Third clause of `check` (elapsed wall-clock ceiling). -/
def checkTimeout (s : State) (now : Nat) : Option String :=
  match s.limits.timeoutMs with
  | some t =>
    if t != 0 && decide (now - s.startTime ≥ t) then
      some ("Timeout budget exceeded: " ++ toString (now - s.startTime)
        ++ "ms/" ++ toString t ++ "ms")
    else none
  | none => none

/-- `Budget.check`: the three ceilings in order, first violation wins. -/
def check (s : State) (now : Nat) : Option String :=
  match checkToolCalls s with
  | some msg => some msg
  | none =>
    match checkTokens s with
    | some msg => some msg
    | none => checkTimeout s now

end Budget

-- ═══════════════════════════════════════════════════════════════════════
-- Audit trail (src/audit/audit.ts, bundled in parallel-task.ts source)
-- ═══════════════════════════════════════════════════════════════════════

namespace Audit

/-- A JavaScript value arriving at `truncate`: `undefined`, `null`, a
string, or a non-string whose `JSON.stringify` serialization is carried
explicitly. -/
inductive JsVal where
  | undef
  | null
  | str (s : String)
  | nonString (serialized : String)
deriving DecidableEq, Repr

/-- `truncate(value, max = 1024)`: `undefined`/`null` pass through as
`undefined`; otherwise the string (or serialization) is cut to its first
`max` characters plus `"…"` when longer than `max`.  JS `str.slice(0, max)`
and `str.length` are modelled on the character list. -/
def truncate (value : JsVal) (max : Nat) : Option String :=
  match value with
  | .undef => none
  | .null => none
  | .str s =>
    some (if s.data.length > max then String.mk (s.data.take max) ++ "…" else s)
  | .nonString j =>
    some (if j.data.length > max then String.mk (j.data.take max) ++ "…" else j)

/-- The `Entry` assembled by `Audit.record` (the `time.created` field is
the `now` passed in). -/
structure Entry where
  id : String
  sessionID : Option String
  userID : Option String
  action : String
  resourceType : String
  resourceID : Option String
  tool : Option String
  inputSummary : Option String
  outputSummary : Option String
  decision : Option String
  timeCreated : Nat
deriving DecidableEq, Repr

/-- The input record of `Audit.record`. -/
structure RecordInput where
  sessionID : Option String := none
  userID : Option String := none
  action : String
  resourceType : String
  resourceID : Option String := none
  tool : Option String := none
  inputSummary : JsVal := .undef
  outputSummary : JsVal := .undef
  decision : Option String := none
deriving Repr

/-- The entry `Audit.record` builds before attempting persistence. -/
def mkEntry (input : RecordInput) (id : String) (now : Nat) : Entry :=
  { id := id
    sessionID := input.sessionID
    userID := input.userID
    action := input.action
    resourceType := input.resourceType
    resourceID := input.resourceID
    tool := input.tool
    inputSummary := truncate input.inputSummary 1024
    outputSummary := truncate input.outputSummary 1024
    decision := input.decision
    timeCreated := now }

/-- What happened inside `Audit.record`'s try/catch. -/
structure RecordResult where
  entry : Entry
  persisted : Bool
  published : Bool
  loggedError : Bool
deriving Repr

/-- The body of the `try` block: the database insert followed by the bus
publish; either may throw (the `Except.error` of its oracle). -/
def recordAttempt (insertOutcome publishOutcome : Except String Unit) :
    Except String Unit := do
  insertOutcome
  publishOutcome

/-- `Audit.record`: builds the entry, then runs the insert and publish
inside a catch-all that logs the failure.  The outer `Except` is the
record function's own exception channel: the source never throws, so the
result is always `Except.ok`. -/
def record (input : RecordInput) (id : String) (now : Nat)
    (insertOutcome publishOutcome : Except String Unit) :
    Except String RecordResult :=
  let entry := mkEntry input id now
  match recordAttempt insertOutcome publishOutcome with
  | .ok _ =>
    .ok { entry := entry, persisted := true, published := true, loggedError := false }
  | .error _ =>
    .ok { entry := entry
          persisted := insertOutcome.isOk
          published := false
          loggedError := true }

/-- A persisted audit row, as far as retention is concerned. -/
structure Row where
  id : String
  time_created : Int
deriving DecidableEq, Repr

/-- The deletion of `Audit.startRetention`'s scheduled `run`:
`delete ... where lte(time_created, cutoff)`.  Returns the surviving rows. -/
def retentionDelete (rows : List Row) (cutoff : Int) : List Row :=
  rows.filter (fun r => !(decide (r.time_created ≤ cutoff)))

/-- One scheduled retention run with `cutoff = now − retentionDays · 24h`. -/
def retentionRun (rows : List Row) (now : Int) (retentionDays : Int) : List Row :=
  retentionDelete rows (now - retentionDays * 24 * 60 * 60 * 1000)

end Audit

-- ═══════════════════════════════════════════════════════════════════════
-- Retention.sweep (third segment of the rbac.ts bundle)
-- ═══════════════════════════════════════════════════════════════════════

namespace Retention

/-- The audit-log half of `Retention.sweep`:
`delete ... where lt(time_created, cutoff)` — note the strict comparison,
guarded by `config.auditDays > 0`.  Returns the surviving rows. -/
def sweepAudit (rows : List Audit.Row) (now : Int) (auditDays : Int) :
    List Audit.Row :=
  if auditDays > 0 then
    let cutoff := now - auditDays * 24 * 60 * 60 * 1000
    rows.filter (fun r => !(decide (r.time_created < cutoff)))
  else rows

/-- The session half of `Retention.sweep` selects sessions with
`lt(time_created, cutoff)` and removes each; surviving sessions returned. -/
def sweepSessions (rows : List Audit.Row) (now : Int) (sessionDays : Int) :
    List Audit.Row :=
  if sessionDays > 0 then
    let cutoff := now - sessionDays * 24 * 60 * 60 * 1000
    rows.filter (fun r => !(decide (r.time_created < cutoff)))
  else rows

end Retention

-- ═══════════════════════════════════════════════════════════════════════
-- Redaction engine (src/unnamed/part_000: redaction plugin)
--
-- The thirteen `SECRET_PATTERNS` regexes are embedded as an executable
-- backtracking matcher with JavaScript semantics: leftmost match,
-- left-priority alternation, greedy/lazy quantifiers with backtracking,
-- word boundaries, multiline anchors, case-insensitive classes, and the
-- `String.replace(regex, callback)` global-replacement loop that scans the
-- original string and restarts after each match.
-- ═══════════════════════════════════════════════════════════════════════

namespace Redaction

structure CC where
  ranges : List (Char × Char)
  neg : Bool := false
deriving DecidableEq, Repr

def swapCase (c : Char) : Char :=
  if c.isUpper then c.toLower else if c.isLower then c.toUpper else c

def inRanges (ranges : List (Char × Char)) (c : Char) : Bool :=
  ranges.any (fun p => decide (p.1 ≤ c) && decide (c ≤ p.2))

def ccMatch (ci : Bool) (cc : CC) (c : Char) : Bool :=
  let canon := inRanges cc.ranges c || (ci && inRanges cc.ranges (swapCase c))
  if cc.neg then !canon else canon

inductive RE where
  | eps
  | lit (cs : List Char)
  | cls (c : CC)
  | cat (a b : RE)
  | alt (a b : RE)
  | rep (c : CC) (mn : Nat) (mx : Option Nat) (lzy : Bool)
  | opt (r : RE)
  | grp (r : RE)
  | bol
  | eol
  | wb
deriving Repr

structure MSt where
  rest : List Char
  pos : Nat
  prev : Option Char
  grp : Option (Nat × Nat)
deriving Repr

def isWordChar (c : Char) : Bool := c.isAlphanum || c == '_'

def lineTerm (c : Char) : Bool :=
  c == '\n' || c == '\r' || c == Char.ofNat 0x2028 || c == Char.ofNat 0x2029

def advanceBy (st : MSt) (n : Nat) : MSt :=
  { rest := st.rest.drop n
    pos := st.pos + n
    prev := match (st.rest.take n).getLast? with
            | some c => some c
            | none => st.prev
    grp := st.grp }

def countCls (ci : Bool) (c : CC) : List Char → Nat
  | [] => 0
  | ch :: rest => if ccMatch ci c ch then countCls ci c rest + 1 else 0

def firstSome {α : Type} : List Nat → (Nat → Option α) → Option α
  | [], _ => none
  | n :: rest, f =>
    match f n with
    | some r => some r
    | none => firstSome rest f

def matLit (ci : Bool) : List Char → MSt → (MSt → Option MSt) → Option MSt
  | [], st, k => k st
  | c :: cs, st, k =>
    match st.rest with
    | [] => none
    | ch :: rest' =>
      let ok := if ci then lowerChar ch == lowerChar c else ch == c
      if ok then matLit ci cs ⟨rest', st.pos + 1, some ch, st.grp⟩ k else none

def mat (ci ml : Bool) : RE → MSt → (MSt → Option MSt) → Option MSt
  | .eps, st, k => k st
  | .lit cs, st, k => matLit ci cs st k
  | .cls c, st, k =>
    match st.rest with
    | [] => none
    | ch :: rest' =>
      if ccMatch ci c ch then k ⟨rest', st.pos + 1, some ch, st.grp⟩ else none
  | .cat a b, st, k => mat ci ml a st (fun st' => mat ci ml b st' k)
  | .alt a b, st, k =>
    match mat ci ml a st k with
    | some r => some r
    | none => mat ci ml b st k
  | .rep c mn mx lzy, st, k =>
    let avail := countCls ci c st.rest
    let hi := match mx with | some m => Nat.min avail m | none => avail
    if hi < mn then none
    else
      let counts := List.range' mn (hi - mn + 1)
      let ordered := if lzy then counts else counts.reverse
      firstSome ordered (fun n => k (advanceBy st n))
  | .opt r, st, k =>
    (match mat ci ml r st k with
     | some res => some res
     | none => k st)
  | .grp r, st, k =>
    mat ci ml r st (fun st' => k { st' with grp := some (st.pos, st'.pos) })
  | .bol, st, k =>
    let ok := match st.prev with
      | none => true
      | some c => ml && lineTerm c
    if ok then k st else none
  | .eol, st, k =>
    let ok := match st.rest with
      | [] => true
      | c :: _ => ml && lineTerm c
    if ok then k st else none
  | .wb, st, k =>
    let before := match st.prev with | some c => isWordChar c | none => false
    let after := match st.rest with | c :: _ => isWordChar c | [] => false
    if before != after then k st else none

structure MRes where
  start : Nat
  stop : Nat
  grp : Option (Nat × Nat)
deriving Repr

def findFrom (ci ml : Bool) (re : RE) : List Char → Nat → Option Char → Option MRes
  | rest, pos, prev =>
    match mat ci ml re ⟨rest, pos, prev, none⟩ some with
    | some st' => some ⟨pos, st'.pos, st'.grp⟩
    | none =>
      match rest with
      | [] => none
      | ch :: rest' => findFrom ci ml re rest' (pos + 1) (some ch)

structure Pattern where
  name : String
  re : RE
  ci : Bool := false
  ml : Bool := false
  group : Option Nat := none

structure Finding where
  type : String
  offset : Nat
deriving DecidableEq, Repr

def placeholder (p : Pattern) : List Char := ("[REDACTED:" ++ p.name ++ "]").data

def subL (s : List Char) (a b : Nat) : List Char := (s.drop a).take (b - a)

def cbReplacement (p : Pattern) (s : List Char) (m : MRes) : List Char :=
  match p.group with
  | some _ =>
    match m.grp with
    | some g =>
      let gv := subL s g.1 g.2
      if gv.isEmpty then placeholder p
      else replaceFirstL (subL s m.start m.stop) gv (placeholder p)
    | none => placeholder p
  | none => placeholder p

def replLoop (p : Pattern) (s : List Char) :
    Nat → List Char → Nat → Option Char → List Char × List Finding
  | 0, suffix, _, _ => (suffix, [])
  | fuel + 1, suffix, pos, prev =>
    match findFrom p.ci p.ml p.re suffix pos prev with
    | none => (suffix, [])
    | some m =>
      let pre := suffix.take (m.start - pos)
      let matchedLen := m.stop - m.start
      let repl := cbReplacement p s m
      let finding : Finding := ⟨p.name, m.start⟩
      if matchedLen == 0 then
        match suffix.drop (m.start - pos) with
        | [] => (pre ++ repl, [finding])
        | ch :: rest' =>
          let (outTail, fs) := replLoop p s fuel rest' (m.start + 1) (some ch)
          (pre ++ repl ++ [ch] ++ outTail, finding :: fs)
      else
        let consumed := m.start - pos + matchedLen
        let rest' := suffix.drop consumed
        let prev' := match (suffix.take consumed).getLast? with
          | some c => some c
          | none => prev
        let (outTail, fs) := replLoop p s fuel rest' m.stop prev'
        (pre ++ repl ++ outTail, finding :: fs)

def applyPattern (p : Pattern) (t : List Char) : List Char × List Finding :=
  replLoop p t (t.length + 1) t 0 none

def runPatterns : List Pattern → List Char → List Char × List Finding
  | [], t => (t, [])
  | p :: ps, t =>
    let (t', fs) := applyPattern p t
    let (t'', fs') := runPatterns ps t'
    (t'', fs ++ fs')

-- pattern building blocks
def rng (a b : Char) : Char × Char := (a, b)
def one (c : Char) : Char × Char := (c, c)
def cls (l : List (Char × Char)) : RE := .cls ⟨l, false⟩
def catL : List RE → RE
  | [] => .eps
  | [r] => r
  | r :: rest => .cat r (catL rest)
def altL : List RE → RE
  | [] => .eps
  | [r] => r
  | r :: rest => .alt r (altL rest)
def lit (s : String) : RE := .lit s.data
def star (cc : CC) : RE := .rep cc 0 none false
def plus (cc : CC) : RE := .rep cc 1 none false

def wsRanges : List (Char × Char) :=
  [(Char.ofNat 9, Char.ofNat 13), one ' ', one (Char.ofNat 0xa0),
   one (Char.ofNat 0x1680), (Char.ofNat 0x2000, Char.ofNat 0x200a),
   one (Char.ofNat 0x2028), one (Char.ofNat 0x2029), one (Char.ofNat 0x202f),
   one (Char.ofNat 0x205f), one (Char.ofNat 0x3000), one (Char.ofNat 0xfeff)]
def WS : CC := ⟨wsRanges, false⟩
def ALL : CC := ⟨[], true⟩
def DOT : CC := ⟨[one '\n', one '\r', one (Char.ofNat 0x2028), one (Char.ofNat 0x2029)], true⟩
def quoteCC : CC := ⟨[one (Char.ofNat 39), one (Char.ofNat 34)], false⟩
def wordCC : CC := ⟨[rng 'A' 'Z', rng 'a' 'z', rng '0' '9', one '_'], false⟩
def alnumCC : CC := ⟨[rng 'A' 'Z', rng 'a' 'z', rng '0' '9'], false⟩
def bearerCC : CC :=
  ⟨[rng 'A' 'Z', rng 'a' 'z', rng '0' '9', one '-', one '.', one '_', one '~', one '+', one '/'], false⟩

def pAwsAccess : Pattern :=
  { name := "AWS Access Key"
    re := catL [.wb,
      .grp (catL [lit "AKIA", .rep ⟨[rng '0' '9', rng 'A' 'Z'], false⟩ 16 (some 16) false]),
      .wb] }

def pAwsSecret : Pattern :=
  { name := "AWS Secret Key", ci := true, group := some 1
    re := catL [
      .alt (lit "aws_secret_access_key") (lit "secret_key"),
      star WS, cls [one '=', one ':'], star WS, .opt (.cls quoteCC),
      .grp (.rep ⟨[rng 'A' 'Z', rng 'a' 'z', rng '0' '9', one '/', one '+', one '='], false⟩ 40 (some 40) false),
      .opt (.cls quoteCC)] }

def pGithub : Pattern :=
  { name := "GitHub Token"
    re := catL [.wb,
      .grp (catL [lit "gh", cls [one 'p', one 's'], lit "_", .rep wordCC 36 (some 255) false]),
      .wb] }

def pGithubFG : Pattern :=
  { name := "GitHub Fine-Grained Token"
    re := catL [.wb, .grp (catL [lit "github_pat_", .rep wordCC 22 (some 255) false]), .wb] }

def pBearer : Pattern :=
  { name := "Bearer Token", ci := true, group := some 1
    re := catL [lit "Bearer", plus WS,
      .grp (catL [plus bearerCC, star ⟨[one '='], false⟩])] }

def pGeneric : Pattern :=
  { name := "Generic API Key", ci := true, group := some 1
    re := catL [
      altL [catL [lit "api", .opt (cls [one '_', one '-']), lit "key"],
            lit "apikey",
            catL [lit "api", .opt (cls [one '_', one '-']), lit "token"],
            catL [lit "access", .opt (cls [one '_', one '-']), lit "token"]],
      star WS, cls [one '=', one ':'], star WS, .opt (.cls quoteCC),
      .grp (.rep bearerCC 20 none false)] }

def keyAlg : RE := altL [lit "RSA ", lit "EC ", lit "ED25519 ", lit "OPENSSH "]

def pPrivKey : Pattern :=
  { name := "Private Key"
    re := catL [lit "-----BEGIN", plus WS, .opt keyAlg, lit "PRIVATE KEY-----",
                .rep ALL 0 none true,
                lit "-----END", plus WS, .opt keyAlg, lit "PRIVATE KEY-----"] }

def urlCC1 : CC := ⟨wsRanges ++ [one (Char.ofNat 39), one (Char.ofNat 34)], true⟩
def urlCC2 : CC := ⟨wsRanges ++ [one (Char.ofNat 39), one (Char.ofNat 34), one '@'], true⟩

def pDbUrl : Pattern :=
  { name := "Database URL", ci := true
    re := catL [
      altL [.cat (lit "postgres") (.opt (lit "ql")),
            lit "mysql",
            .cat (lit "mongodb") (.opt (lit "+srv")),
            lit "redis", lit "amqp"],
      lit "://", plus urlCC1, lit ":", plus urlCC2, lit "@", plus urlCC1] }

def pSlack : Pattern :=
  { name := "Slack Token"
    re := catL [.wb,
      .grp (catL [lit "xox", cls [one 'b', one 'p', one 'r', one 'a', one 's'], lit "-",
        .rep ⟨[rng '0' '9'], false⟩ 10 (some 13) false, lit "-",
        .rep ⟨[rng '0' '9'], false⟩ 10 (some 13) false,
        star ⟨[rng 'a' 'z', rng 'A' 'Z', rng '0' '9', one '-'], false⟩]),
      .wb] }

def pStripe : Pattern :=
  { name := "Stripe Key"
    re := catL [.wb,
      .grp (catL [cls [one 's', one 'r'], lit "k_", .alt (lit "live") (lit "test"), lit "_",
        .rep alnumCC 20 none false]),
      .wb] }

def pOpenai : Pattern :=
  { name := "OpenAI API Key"
    re := catL [.wb,
      .grp (catL [lit "sk-", .rep alnumCC 20 none false, lit "T3BlbkFJ",
        .rep alnumCC 20 none false]),
      .wb] }

def anthCC : CC := ⟨[rng 'A' 'Z', rng 'a' 'z', rng '0' '9', one '-'], false⟩

def pAnthropic : Pattern :=
  { name := "Anthropic API Key"
    re := catL [.wb, .grp (catL [lit "sk-ant-", .rep anthCC 20 none false]), .wb] }

def envKeyCC : CC := ⟨[one '_', rng 'A' 'Z', rng '0' '9'], false⟩

def pEnv : Pattern :=
  { name := "Env Secret", ci := true, ml := true, group := some 1
    re := catL [.bol,
      altL [lit "SECRET", lit "PASSWORD", lit "TOKEN", lit "PRIVATE_KEY", lit "API_KEY",
            lit "DATABASE_URL", lit "DB_PASSWORD", lit "JWT_SECRET", lit "ENCRYPTION_KEY"],
      star envKeyCC, star WS, lit "=", star WS, .opt (.cls quoteCC),
      .grp (.rep DOT 1 none true), .opt (.cls quoteCC), .eol] }

def SECRET_PATTERNS : List Pattern :=
  [pAwsAccess, pAwsSecret, pGithub, pGithubFG, pBearer, pGeneric, pPrivKey,
   pDbUrl, pSlack, pStripe, pOpenai, pAnthropic, pEnv]

structure ScanResult where
  redacted : String
  findings : List Finding
deriving Repr

def redactSecrets (text : String) : ScanResult :=
  let pair := runPatterns SECRET_PATTERNS text.data
  ⟨String.mk pair.1, pair.2⟩

end Redaction

-- ═══════════════════════════════════════════════════════════════════════
-- Parallel task orchestrator (src/tool/parallel-task.ts)
-- ═══════════════════════════════════════════════════════════════════════

namespace ParallelTask

/-- One entry of the `tasks` parameter array. -/
structure TaskSpec where
  description : String
  prompt : String
  subagent_type : String
deriving DecidableEq, Repr

/-- The slice of an `Agent.Info` the dispatcher reads. -/
structure AgentInfo where
  name : String
  hasTaskPermission : Bool := false
  timeoutMs : Option Nat := none
deriving DecidableEq, Repr

/-- One text-bearing or other output fragment of a prompt result
(`result.parts`). -/
structure Part where
  type : String
  text : String
deriving DecidableEq, Repr

/-- `result.parts.findLast((x) => x.type === "text")?.text ?? ""`. -/
def lastTextPart (parts : List Part) : String :=
  match parts.reverse.find? (fun p => p.type == "text") with
  | some p => p.text
  | none => ""

/-- The upfront resolution loop: `Promise.all(tasks.map(t => Agent.get ...))`
with `throw new Error(\x60Unknown agent type: ...\x60)` on a miss.  `mapM`
over `Except` stops at the first unresolvable task, and no later phase
runs. -/
def resolveAgents (registry : String → Option AgentInfo)
    (tasks : List TaskSpec) : Except String (List AgentInfo) :=
  tasks.mapM (fun t =>
    match registry t.subagent_type with
    | some a => Except.ok a
    | none => Except.error ("Unknown agent type: " ++ t.subagent_type))

/-- Observable side effects of the dispatch phase. -/
inductive Event where
  | sessionCreated (idx : Nat) (sessionID : String)
deriving DecidableEq, Repr

/-- The value a fulfilled task settles with. -/
structure TaskValue where
  sessionID : String
  description : String
  agent : String
  text : String
deriving DecidableEq, Repr

/-- One task's body inside `Promise.allSettled`: create the child session
(oracle `createOutcome`), then run the prompt loop (oracle
`promptOutcome`); any rejection settles this one task as an error.  The
session-created event is emitted exactly when `Session.create` succeeds. -/
def runTask (createOutcome : Nat → Except String String)
    (promptOutcome : Nat → Except String (List Part))
    (task : TaskSpec) (agent : AgentInfo) (idx : Nat) :
    Except String TaskValue × List Event :=
  match createOutcome idx with
  | .error e => (.error e, [])
  | .ok sessionID =>
    match promptOutcome idx with
    | .ok parts =>
      (.ok { sessionID := sessionID
             description := task.description
             agent := agent.name
             text := lastTextPart parts },
       [.sessionCreated idx sessionID])
    | .error e => (.error e, [.sessionCreated idx sessionID])

/-- Run every task of the batch independently (the settled array of
`Promise.allSettled`), in input order, collecting emitted events. -/
def runAll (createOutcome : Nat → Except String String)
    (promptOutcome : Nat → Except String (List Part)) :
    List (TaskSpec × AgentInfo) → Nat →
    List (Except String TaskValue) × List Event
  | [], _ => ([], [])
  | (task, agent) :: rest, idx =>
    let (r, evs) := runTask createOutcome promptOutcome task agent idx
    let (rs, evs') := runAll createOutcome promptOutcome rest (idx + 1)
    (r :: rs, evs ++ evs')

/-- The per-task section the aggregation loop pushes onto `output`. -/
def renderTask (i : Nat) (task : TaskSpec) (result : Except String TaskValue) :
    List String :=
  ["", "--- Task " ++ toString (i + 1) ++ ": " ++ task.description
      ++ " (@" ++ task.subagent_type ++ ") ---"]
  ++ match result with
     | .ok v => ["task_id: " ++ v.sessionID, "", "<task_result>", v.text, "</task_result>"]
     | .error e => ["ERROR: " ++ e]

/-- The aggregated batch result: the `output` line array before joining,
the metadata counters, and the error log calls (description, agent type,
error) made for rejected tasks. -/
structure BatchResult where
  title : String
  sessionIds : List String
  tasks : Nat
  succeeded : Nat
  failed : Nat
  output : List String
  loggedErrors : List (String × String × String)
deriving DecidableEq, Repr

/-- The result-collection loop (source lines 186–226). -/
def aggregate (tasks : List TaskSpec) (results : List (Except String TaskValue)) :
    BatchResult :=
  let n := tasks.length
  let pairs := (tasks.zip results).enum
  let lines := ("Parallel execution of " ++ toString n ++ " tasks:")
    :: pairs.flatMap (fun p => renderTask p.1 p.2.1 p.2.2)
  let sessionIds := results.filterMap (fun r =>
    match r with | .ok v => some v.sessionID | .error _ => none)
  let succeeded := (results.filter (fun r => r.isOk)).length
  let failed := (results.filter (fun r => !r.isOk)).length
  let logged := (tasks.zip results).filterMap (fun p =>
    match p.2 with
    | .error e => some (p.1.description, p.1.subagent_type, e)
    | .ok _ => none)
  { title := "Parallel: " ++ toString succeeded ++ "/" ++ toString n
      ++ " succeeded" ++ (if failed > 0 then ", " ++ toString failed ++ " failed" else "")
    sessionIds := sessionIds
    tasks := n
    succeeded := succeeded
    failed := failed
    output := lines
    loggedErrors := logged }

/-- The whole `execute` body: batch-level permission ask, all-or-nothing
agent resolution, per-task dispatch, aggregation.  The pair's second
component is the list of session-creation events that actually happened. -/
def executeBatch (askOutcome : Except String Unit)
    (registry : String → Option AgentInfo)
    (createOutcome : Nat → Except String String)
    (promptOutcome : Nat → Except String (List Part))
    (tasks : List TaskSpec) :
    Except String BatchResult × List Event :=
  match askOutcome with
  | .error e => (.error e, [])
  | .ok _ =>
    match resolveAgents registry tasks with
    | .error e => (.error e, [])
    | .ok agents =>
      let (results, events) := runAll createOutcome promptOutcome (tasks.zip agents) 0
      (.ok (aggregate tasks results), events)

/-- Specification-side reformulation of the aggregation loop: the
concatenation of the per-task sections, in input order, starting at task
index `i`. -/
def orderedSections (i : Nat) :
    List (TaskSpec × Except String TaskValue) → List String
  | [] => []
  | (task, result) :: rest => renderTask i task result ++ orderedSections (i + 1) rest

end ParallelTask

-- ═══════════════════════════════════════════════════════════════════════
-- Theorems
-- ═══════════════════════════════════════════════════════════════════════

/-- C2: with a principal of role `r` bound to the identity context,
`can(c)` returns true if and only if
`hierarchyLevel(r) ≥ hierarchyLevel(requiredRole(c))`, where an unlisted
capability requires role "employee"; in particular a viewer asking for
"session.create" gets `false`, and an admin gets `true` for every
capability. -/
theorem c2_can_matches_hierarchy :
    (∀ (r : RBAC.Role) (idStr : String) (c : String),
        RBAC.can (some { id := idStr, role := r }) c
          = decide (RBAC.HIERARCHY r ≥ RBAC.HIERARCHY (RBAC.requiredRole c)))
    ∧ RBAC.can (some { id := "v", role := RBAC.Role.viewer }) "session.create" = false
    ∧ (∀ c : String, RBAC.can (some { id := "a", role := RBAC.Role.admin }) c = true) := by
  refine ⟨?_, ?_, ?_⟩
  · intro r idStr c
    rfl
  · decide
  · intro c
    have hle : RBAC.HIERARCHY (RBAC.requiredRole c) ≤ 2 := by
      cases h : RBAC.requiredRole c <;> simp [RBAC.HIERARCHY]
    show RBAC.hasRole { id := "a", role := RBAC.Role.admin } (RBAC.requiredRole c) = true
    unfold RBAC.hasRole
    simp only [decide_eq_true_eq]
    exact hle

/-- C5: `Budget.check` evaluates the tool-call ceiling, then the token
ceiling, then the elapsed-time ceiling, returning the first violated
constraint only; with `maxToolCalls = 10` the tool-call violation fires
exactly when `toolCalls ≥ 10` (so never at 9); and a tracker with no
limit fields configured never violates. -/
theorem c5_budget_check_order_and_thresholds :
    (∀ (s : Budget.State) (now : Nat),
        (Budget.checkToolCalls s ≠ none →
            Budget.check s now = Budget.checkToolCalls s)
        ∧ (Budget.checkToolCalls s = none → Budget.checkTokens s ≠ none →
            Budget.check s now = Budget.checkTokens s)
        ∧ (Budget.checkToolCalls s = none → Budget.checkTokens s = none →
            Budget.check s now = Budget.checkTimeout s now))
    ∧ (∀ (s : Budget.State) (now : Nat), s.limits.maxToolCalls = some 10 →
        (s.toolCalls ≥ 10 →
            Budget.check s now
              = some ("Tool call budget exceeded: "
                  ++ toString s.toolCalls ++ "/10"))
        ∧ (s.toolCalls < 10 → Budget.checkToolCalls s = none))
    ∧ (∀ (s : Budget.State) (now : Nat),
        s.limits = { maxToolCalls := none, maxTokens := none, timeoutMs := none } →
        Budget.check s now = none) := by
  refine ⟨?_, ?_, ?_⟩
  · intro s now
    refine ⟨?_, ?_, ?_⟩
    · intro h
      unfold Budget.check
      cases htc : Budget.checkToolCalls s with
      | none => exact absurd htc h
      | some m => simp
    · intro h1 h2
      unfold Budget.check
      rw [h1]
      cases htk : Budget.checkTokens s with
      | none => exact absurd htk h2
      | some m => simp
    · intro h1 h2
      unfold Budget.check
      rw [h1, h2]
  · intro s now h10
    constructor
    · intro hge
      unfold Budget.check Budget.checkToolCalls
      rw [h10]
      simp [hge]
      rw [String.append_assoc]
      rfl
    · intro hlt
      unfold Budget.checkToolCalls
      rw [h10]
      simp
      omega
  · intro s now hnone
    unfold Budget.check Budget.checkToolCalls Budget.checkTokens Budget.checkTimeout
    rw [hnone]

/-- Iterating `recordToolCall` never touches the configured limits. -/
theorem budget_iterate_limits (n : Nat) (s : Budget.State) :
    (Nat.iterate Budget.recordToolCall n s).limits = s.limits := by
  induction n generalizing s with
  | zero => rfl
  | succ k ih =>
    rw [Function.iterate_succ_apply]
    exact ih _

/-- Witness for C5: a tracker created with no limits, after 1000 recorded
tool calls and 999999 recorded tokens, still reports no violation. -/
theorem c5_budget_witness :
    Budget.check
      (Budget.recordTokens
        (Nat.iterate Budget.recordToolCall 1000 (Budget.create {} 5)) 999999)
      123456 = none :=
  c5_budget_check_order_and_thresholds.2.2 _ 123456
    (by rw [Budget.recordTokens, budget_iterate_limits]; rfl)

/-- C6: `Audit.record` never propagates a persistence failure: whatever the
insert and publish oracles do, `record` returns normally (`Except.ok`),
and when the attempted insert-then-publish throws, the failure is logged
and still swallowed. -/
theorem c6_record_never_raises :
    ∀ (input : Audit.RecordInput) (idStr : String) (now : Nat)
      (insertOutcome publishOutcome : Except String Unit),
      (Audit.record input idStr now insertOutcome publishOutcome).isOk = true
      ∧ (∀ e, Audit.recordAttempt insertOutcome publishOutcome = .error e →
          ∃ r, Audit.record input idStr now insertOutcome publishOutcome = .ok r
            ∧ r.loggedError = true) := by
  intro input idStr now insertOutcome publishOutcome
  constructor
  · cases insertOutcome <;> cases publishOutcome <;> rfl
  · intro e herr
    cases insertOutcome with
    | error a => exact ⟨_, rfl, rfl⟩
    | ok u =>
      cases publishOutcome with
      | error b => exact ⟨_, rfl, rfl⟩
      | ok v => exact Except.noConfusion herr

/-- Witness for C6: a failing database insert is swallowed; `record`
returns `ok` with the failure logged. -/
theorem c6_record_witness :
    ∃ r, Audit.record { action := "policy.denied", resourceType := "tool" }
        "auditid" 42 (.error "db unavailable") (.ok ()) = .ok r
      ∧ r.loggedError = true :=
  (c6_record_never_raises { action := "policy.denied", resourceType := "tool" }
      "auditid" 42 (.error "db unavailable") (.ok ())).2 "db unavailable" rfl

/-- A 1025-character input string for exercising truncation. -/
def longInput : String := String.mk (List.replicate 1025 'a')

/-- `String.append` acts as list append on the character data. -/
theorem string_mk_append_data (l : List Char) (t : String) :
    (String.mk l ++ t).data = l ++ t.data := by
  cases t
  rfl

/-- Counterexample for C9: the claim says every stored summary is at most
1024 characters, but an input of 1025 characters is stored as its first
1024 characters plus the ellipsis — 1025 characters in total. -/
theorem c9_truncate_counterexample :
    (((Audit.mkEntry
        { action := "tool.run", resourceType := "tool",
          inputSummary := .str longInput } "id1" 7).inputSummary).getD "").data.length
      = 1025
    ∧ ¬ ((((Audit.mkEntry
        { action := "tool.run", resourceType := "tool",
          inputSummary := .str longInput } "id1" 7).inputSummary).getD "").data.length
      ≤ 1024) := by
  have hlen : longInput.data.length = 1025 := by
    show (List.replicate 1025 'a').length = 1025
    exact List.length_replicate 1025 'a'
  have hkey : (((Audit.mkEntry
      { action := "tool.run", resourceType := "tool",
        inputSummary := .str longInput } "id1" 7).inputSummary).getD "").data.length
      = 1025 := by
    have htr : Audit.truncate (.str longInput) 1024
        = some (String.mk (longInput.data.take 1024) ++ "…") := by
      show some (if longInput.data.length > 1024
          then String.mk (longInput.data.take 1024) ++ "…" else longInput)
        = some (String.mk (longInput.data.take 1024) ++ "…")
      rw [if_pos (by omega)]
    show ((Audit.truncate (.str longInput) 1024).getD "").data.length = 1025
    rw [htr]
    show (String.mk (longInput.data.take 1024) ++ "…").data.length = 1025
    rw [string_mk_append_data]
    simp [List.length_take, hlen]
  refine ⟨hkey, ?_⟩
  rw [hkey]
  omega

/-- Any summary produced by `truncate` has at most `max + 1` characters. -/
theorem truncate_length_le (v : Audit.JsVal) (mx : Nat) (out : String) :
    Audit.truncate v mx = some out → out.data.length ≤ mx + 1 := by
  cases v with
  | undef => intro h; exact Option.noConfusion h
  | null => intro h; exact Option.noConfusion h
  | str s =>
    intro h
    simp only [Audit.truncate] at h
    split at h
    · rename_i hgt
      have hout := Option.some.inj h
      rw [← hout, string_mk_append_data]
      rw [List.length_append]
      have h1 : "…".data.length = 1 := rfl
      rw [h1, List.length_take]
      omega
    · rename_i hle
      have hout := Option.some.inj h
      rw [← hout]
      omega
  | nonString j =>
    intro h
    simp only [Audit.truncate] at h
    split at h
    · rename_i hgt
      have hout := Option.some.inj h
      rw [← hout, string_mk_append_data]
      rw [List.length_append]
      have h1 : "…".data.length = 1 := rfl
      rw [h1, List.length_take]
      omega
    · rename_i hle
      have hout := Option.some.inj h
      rw [← hout]
      omega

/-- C9 (amended): `truncate` leaves a string of length ≤ max unchanged and
otherwise returns its first max characters followed by "…" (so the result
of truncating a longer string has max + 1 characters, ellipsis-terminated,
and `truncate("abcdefghij", 5) = "abcde…"`); `Audit.record` stores
`inputSummary`/`outputSummary` through `truncate` with max = 1024, so every
stored summary has at most 1025 characters. -/
theorem c9_truncate_stored_summaries :
    (∀ (s : String) (mx : Nat), s.data.length ≤ mx →
        Audit.truncate (.str s) mx = some s)
    ∧ (∀ (s : String) (mx : Nat), s.data.length > mx →
        Audit.truncate (.str s) mx = some (String.mk (s.data.take mx) ++ "…")
        ∧ (∀ out, Audit.truncate (.str s) mx = some out →
            out.data.length = mx + 1 ∧ out.data.getLast? = some '…'))
    ∧ Audit.truncate (.str "abcdefghij") 5 = some "abcde…"
    ∧ (∀ (input : Audit.RecordInput) (idStr : String) (now : Nat),
        (Audit.mkEntry input idStr now).inputSummary
            = Audit.truncate input.inputSummary 1024
        ∧ (Audit.mkEntry input idStr now).outputSummary
            = Audit.truncate input.outputSummary 1024
        ∧ (∀ out, Audit.truncate input.inputSummary 1024 = some out →
            out.data.length ≤ 1025)) := by
  refine ⟨?_, ?_, ?_, ?_⟩
  · intro s mx hle
    show some (if s.data.length > mx
        then String.mk (s.data.take mx) ++ "…" else s) = some s
    rw [if_neg (by omega)]
  · intro s mx hgt
    have heq : Audit.truncate (.str s) mx
        = some (String.mk (s.data.take mx) ++ "…") := by
      show some (if s.data.length > mx
          then String.mk (s.data.take mx) ++ "…" else s) = _
      rw [if_pos hgt]
    refine ⟨heq, ?_⟩
    intro out hout
    rw [heq] at hout
    have hout' := Option.some.inj hout
    constructor
    · rw [← hout', string_mk_append_data, List.length_append, List.length_take]
      have h1 : "…".data.length = 1 := rfl
      rw [h1]
      omega
    · rw [← hout', string_mk_append_data]
      have h2 : "…".data = ['…'] := rfl
      rw [h2]
      exact List.getLast?_concat _
  · decide
  · intro input idStr now
    exact ⟨rfl, rfl, fun out hout => truncate_length_le _ _ _ hout⟩

/-- Witness for C9 (amended): a short string passes through unchanged, and
the claim's own example truncates to "abcde…". -/
theorem c9_truncate_witness :
    Audit.truncate (.str "abc") 5 = some "abc"
    ∧ Audit.truncate (.str "abcdefghij") 5
        = some (String.mk ("abcdefghij".data.take 5) ++ "…") :=
  ⟨c9_truncate_stored_summaries.1 "abc" 5 (by decide),
   (c9_truncate_stored_summaries.2.1 "abcdefghij" 5 (by decide)).1⟩

/-- Counterexample for C8: `Retention.sweep` deletes audit rows with
`lt(time_created, cutoff)` — strictly older than the cutoff — so a row
whose timestamp equals the cutoff survives, although the claim says rows
with timestamp ≤ cutoff are deleted.  With now = one day in milliseconds
and a one-day window the cutoff is 0, and the row at timestamp 0 stays. -/
theorem c8_sweep_counterexample :
    Retention.sweepAudit [{ id := "r", time_created := 0 }] 86400000 1
      = [{ id := "r", time_created := 0 }]
    ∧ (0 : Int) ≤ 86400000 - 1 * 24 * 60 * 60 * 1000 := by
  constructor
  · decide
  · decide

/-- C8 (amended): the scheduled audit retention run
(`Audit.startRetention`) deletes exactly the rows with timestamp ≤ cutoff
where cutoff = now − N days, and is idempotent; `Retention.sweep` deletes
exactly the rows with timestamp strictly < cutoff, and is idempotent.
Both delete by age cutoff only. -/
theorem c8_retention_exact_and_idempotent :
    (∀ (rows : List Audit.Row) (now days : Int) (r : Audit.Row), r ∈ rows →
        (r ∈ Audit.retentionRun rows now days
          ↔ ¬ r.time_created ≤ now - days * 24 * 60 * 60 * 1000))
    ∧ (∀ (rows : List Audit.Row) (now days : Int),
        Audit.retentionRun (Audit.retentionRun rows now days) now days
          = Audit.retentionRun rows now days)
    ∧ (∀ (rows : List Audit.Row) (now days : Int) (r : Audit.Row),
        0 < days → r ∈ rows →
        (r ∈ Retention.sweepAudit rows now days
          ↔ ¬ r.time_created < now - days * 24 * 60 * 60 * 1000))
    ∧ (∀ (rows : List Audit.Row) (now days : Int),
        Retention.sweepAudit (Retention.sweepAudit rows now days) now days
          = Retention.sweepAudit rows now days) := by
  refine ⟨?_, ?_, ?_, ?_⟩
  · intro rows now days r hmem
    simp [Audit.retentionRun, Audit.retentionDelete, List.mem_filter, hmem]
  · intro rows now days
    simp [Audit.retentionRun, Audit.retentionDelete, List.filter_filter]
  · intro rows now days r hdays hmem
    simp [Retention.sweepAudit, hdays, List.mem_filter, hmem]
  · intro rows now days
    by_cases hdays : days > 0
    · simp [Retention.sweepAudit, hdays, List.filter_filter]
    · simp [Retention.sweepAudit, hdays]

/-- Witness for C8 (amended): a concrete three-row store swept with a
one-day window at now = two days; the boundary row survives the strict
sweep and is removed by the ≤ sweep. -/
theorem c8_retention_witness :
    ({ id := "old", time_created := 0 } : Audit.Row)
        ∉ Audit.retentionRun
            [{ id := "old", time_created := 0 },
             { id := "edge", time_created := 86400000 },
             { id := "new", time_created := 100000000 }] 172800000 1
    ∧ ({ id := "edge", time_created := 86400000 } : Audit.Row)
        ∉ Audit.retentionRun
            [{ id := "old", time_created := 0 },
             { id := "edge", time_created := 86400000 },
             { id := "new", time_created := 100000000 }] 172800000 1
    ∧ ({ id := "edge", time_created := 86400000 } : Audit.Row)
        ∈ Retention.sweepAudit
            [{ id := "old", time_created := 0 },
             { id := "edge", time_created := 86400000 },
             { id := "new", time_created := 100000000 }] 172800000 1 := by
  refine ⟨?_, ?_, ?_⟩
  · intro hmem
    have h := (c8_retention_exact_and_idempotent.1 _ 172800000 1 _ (by decide)).mp hmem
    exact h (by decide)
  · intro hmem
    have h := (c8_retention_exact_and_idempotent.1 _ 172800000 1 _ (by decide)).mp hmem
    exact h (by decide)
  · exact (c8_retention_exact_and_idempotent.2.2.1 _ 172800000 1 _ (by decide)
      (by decide)).mpr (by decide)

/-- If any task names an unknown agent type, the upfront resolution pass
fails with an "Unknown agent type" error naming one of the unknown types. -/
theorem resolveAgents_unknown
    (registry : String → Option ParallelTask.AgentInfo)
    (tasks : List ParallelTask.TaskSpec) :
    (∃ t ∈ tasks, registry t.subagent_type = none) →
    ∃ u, ParallelTask.resolveAgents registry tasks
          = .error ("Unknown agent type: " ++ u)
      ∧ ∃ t ∈ tasks, t.subagent_type = u ∧ registry u = none := by
  induction tasks with
  | nil => simp
  | cons t0 rest ih =>
    intro h
    cases hreg : registry t0.subagent_type with
    | none =>
      refine ⟨t0.subagent_type, ?_, t0, by simp, rfl, hreg⟩
      unfold ParallelTask.resolveAgents
      rw [List.mapM_cons, hreg]
      rfl
    | some a =>
      have h' : ∃ t ∈ rest, registry t.subagent_type = none := by
        rcases h with ⟨t, ht, hnone⟩
        rcases List.mem_cons.mp ht with rfl | hmem
        · rw [hreg] at hnone
          exact Option.noConfusion hnone
        · exact ⟨t, hmem, hnone⟩
      rcases ih h' with ⟨u, herr, t, hmem, hname, hnone⟩
      refine ⟨u, ?_, t, List.mem_cons_of_mem _ hmem, hname, hnone⟩
      unfold ParallelTask.resolveAgents at herr ⊢
      rw [List.mapM_cons, hreg, herr]
      rfl

/-- C3: every task's agent definition is resolved before any child session
is created — a batch containing an unknown agent type aborts whole with an
"Unknown agent type" failure, and the dispatch event trace is empty (zero
child sessions created for any task of the batch). -/
theorem c3_unknown_agent_no_dispatch :
    ∀ (registry : String → Option ParallelTask.AgentInfo)
      (createOutcome : Nat → Except String String)
      (promptOutcome : Nat → Except String (List ParallelTask.Part))
      (tasks : List ParallelTask.TaskSpec),
      (∃ t ∈ tasks, registry t.subagent_type = none) →
      (ParallelTask.executeBatch (.ok ()) registry createOutcome
          promptOutcome tasks).2 = []
      ∧ ∃ u, (ParallelTask.executeBatch (.ok ()) registry createOutcome
            promptOutcome tasks).1 = .error ("Unknown agent type: " ++ u)
          ∧ ∃ t ∈ tasks, t.subagent_type = u ∧ registry u = none := by
  intro registry createOutcome promptOutcome tasks h
  rcases resolveAgents_unknown registry tasks h with ⟨u, herr, hex⟩
  unfold ParallelTask.executeBatch
  rw [herr]
  exact ⟨rfl, u, rfl, hex⟩

/-- Witness for C3: a two-task batch whose second task names an agent the
registry does not know is rejected wholesale with no session events. -/
theorem c3_unknown_agent_witness :
    (ParallelTask.executeBatch (.ok ())
        (fun n => if n == "review" then some { name := "review" } else none)
        (fun _ => .ok "ses_1") (fun _ => .ok [])
        [{ description := "a", prompt := "p", subagent_type := "review" },
         { description := "b", prompt := "q", subagent_type := "ghost" }]).2 = []
    ∧ ∃ u, (ParallelTask.executeBatch (.ok ())
        (fun n => if n == "review" then some { name := "review" } else none)
        (fun _ => .ok "ses_1") (fun _ => .ok [])
        [{ description := "a", prompt := "p", subagent_type := "review" },
         { description := "b", prompt := "q", subagent_type := "ghost" }]).1
          = .error ("Unknown agent type: " ++ u)
        ∧ ∃ t ∈ [({ description := "a", prompt := "p", subagent_type := "review" } :
              ParallelTask.TaskSpec),
            { description := "b", prompt := "q", subagent_type := "ghost" }],
            t.subagent_type = u ∧ (if u == "review"
              then some ({ name := "review" } : ParallelTask.AgentInfo) else none) = none :=
  c3_unknown_agent_no_dispatch _ _ _ _
    ⟨{ description := "b", prompt := "q", subagent_type := "ghost" },
     by simp, by decide⟩

/-- A tool on the viewer deny list is flagged by `isToolDenied` under the
viewer role, whether or not the global list also names it. -/
theorem isToolDenied_viewer_list (tool : String) (policy : Policy.PolicyConfig)
    (hv : policy.viewer_deny_tools.contains tool = true) :
    Policy.isToolDenied tool .viewer policy ≠ none := by
  have hv' : tool ∈ policy.viewer_deny_tools := by simpa using hv
  by_cases hg : tool ∈ policy.deny_tools
  · simp [Policy.isToolDenied, hg]
  · simp [Policy.isToolDenied, hg, hv']

/-- With no bound user, `permission.ask` is rules 2–6 only. -/
theorem permissionAsk_none (policy : Policy.PolicyConfig) (i : Policy.AskInput) :
    Policy.permissionAsk none policy i = Policy.askAfterRbac none policy i := rfl

/-- Unfolding of `askAfterRbac` for an unauthenticated request: the role
defaults to viewer and the admin auto-allow step can never fire. -/
theorem askAfterRbac_none_eq (policy : Policy.PolicyConfig) (i : Policy.AskInput) :
    Policy.askAfterRbac none policy i =
      (match Policy.isToolDenied (Policy.toolNameOf i) .viewer policy with
       | some r => .deny r
       | none =>
         match Policy.containsDeniedPattern i.metaSerialized policy with
         | some r => .deny r
         | none =>
           if policy.require_approval_tools.contains (Policy.toolNameOf i)
           then .pending
           else .unresolved) := rfl

/-- Unfolding of `tool.execute.before` for an unauthenticated request. -/
theorem toolExecuteBefore_none_eq (policy : Policy.PolicyConfig) (tool : String) :
    Policy.toolExecuteBefore none policy tool =
      (match Policy.isToolDenied tool .viewer policy with
       | some r => ⟨true, some r⟩
       | none => ⟨false, none⟩) := rfl

/-- C10: with no principal bound, the policy hooks fall back to role
"viewer" for the role-specific deny check: at the ask phase a tool on the
viewer deny list is denied, at the execute-before phase it is blocked;
and an unauthenticated request is never auto-allowed — when no deny or
approval rule fires its decision is left unresolved. -/
theorem c10_unauthenticated_defaults_to_viewer :
    (∀ (policy : Policy.PolicyConfig) (i : Policy.AskInput),
        policy.viewer_deny_tools.contains (Policy.toolNameOf i) = true →
        ∃ reason, Policy.permissionAsk none policy i = .deny reason)
    ∧ (∀ (policy : Policy.PolicyConfig) (tool : String),
        policy.viewer_deny_tools.contains tool = true →
        (Policy.toolExecuteBefore none policy tool).policyDenied = true)
    ∧ (∀ (policy : Policy.PolicyConfig) (i : Policy.AskInput),
        Policy.permissionAsk none policy i ≠ .allow)
    ∧ (∀ (policy : Policy.PolicyConfig) (i : Policy.AskInput),
        Policy.isToolDenied (Policy.toolNameOf i) .viewer policy = none →
        Policy.containsDeniedPattern i.metaSerialized policy = none →
        policy.require_approval_tools.contains (Policy.toolNameOf i) = false →
        Policy.permissionAsk none policy i = .unresolved) := by
  refine ⟨?_, ?_, ?_, ?_⟩
  · intro policy i hv
    rw [permissionAsk_none, askAfterRbac_none_eq]
    cases hd : Policy.isToolDenied (Policy.toolNameOf i) .viewer policy with
    | some r => exact ⟨r, by simp [hd]⟩
    | none =>
      exact absurd hd (isToolDenied_viewer_list (Policy.toolNameOf i) policy hv)
  · intro policy tool hv
    rw [toolExecuteBefore_none_eq]
    cases hd : Policy.isToolDenied tool .viewer policy with
    | some r => simp [hd]
    | none => exact absurd hd (isToolDenied_viewer_list tool policy hv)
  · intro policy i
    rw [permissionAsk_none, askAfterRbac_none_eq]
    cases hd : Policy.isToolDenied (Policy.toolNameOf i) .viewer policy with
    | some r => simp [hd]
    | none =>
      cases hp : Policy.containsDeniedPattern i.metaSerialized policy with
      | some r => simp [hd, hp]
      | none =>
        simp only [hd, hp]
        split
        · simp
        · simp
  · intro policy i hd hp ha
    rw [permissionAsk_none, askAfterRbac_none_eq]
    simp [hd, hp]
    simpa using ha

/-- Witness for C10: with no principal and "bash" on the viewer deny list,
the ask phase denies, the execute-before phase blocks, and a clean request
is left unresolved rather than allowed. -/
theorem c10_unauthenticated_witness :
    (∃ reason, Policy.permissionAsk none
        { viewer_deny_tools := ["bash"] }
        { type := "bash" } = .deny reason)
    ∧ (Policy.toolExecuteBefore none { viewer_deny_tools := ["bash"] } "bash").policyDenied
        = true
    ∧ Policy.permissionAsk none { viewer_deny_tools := ["bash"] } { type := "read" }
        = .unresolved :=
  ⟨c10_unauthenticated_defaults_to_viewer.1 { viewer_deny_tools := ["bash"] }
      { type := "bash" } (by decide),
   c10_unauthenticated_defaults_to_viewer.2.1 { viewer_deny_tools := ["bash"] }
      "bash" (by decide),
   c10_unauthenticated_defaults_to_viewer.2.2.2 { viewer_deny_tools := ["bash"] }
      { type := "read" } (by decide) (by decide) (by decide)⟩

/-- The pattern loop of `containsDeniedPattern` is a first-match search. -/
theorem denyPatternLoop_eq_find (input : String) (pats : List String) :
    Policy.denyPatternLoop input pats
      = (pats.find? (fun p => strIncludes input (lowerStr p))).map
          (fun p => "Input contains denied pattern: \"" ++ p ++ "\"") := by
  induction pats with
  | nil => rfl
  | cons p rest ih =>
    unfold Policy.denyPatternLoop
    by_cases hp : strIncludes input (lowerStr p) = true
    · simp [hp, List.find?]
    · simp only [hp]
      rw [ih]
      simp [List.find?, hp]

/-- `containsDeniedPattern` returns the message of the first configured
pattern occurring case-insensitively in the serialized metadata. -/
theorem containsDeniedPattern_eq_spec (meta : String) (policy : Policy.PolicyConfig) :
    Policy.containsDeniedPattern meta policy
      = (Policy.specFirstPattern meta policy).map
          (fun p => "Input contains denied pattern: \"" ++ p ++ "\"") := by
  unfold Policy.containsDeniedPattern Policy.specFirstPattern
  by_cases hempty : policy.deny_patterns.isEmpty = true
  · have : policy.deny_patterns = [] := by
      cases hl : policy.deny_patterns
      · rfl
      · rw [hl] at hempty; exact absurd hempty (by simp)
    simp [this]
  · simp only [hempty]
    rw [denyPatternLoop_eq_find]
    rfl

/-- `isToolDenied` is the global list followed by the role-specific list
of the evaluated role, with the corresponding reason text. -/
theorem isToolDenied_eq_rules (tool : String) (role : RBAC.Role)
    (policy : Policy.PolicyConfig) :
    Policy.isToolDenied tool role policy
      = (if policy.deny_tools.contains tool then
          some ("Tool \"" ++ tool ++ "\" is denied by policy")
        else if (Policy.roleDenyList role policy).contains tool then
          some (Policy.roleDenyReason tool role)
        else none) := by
  cases role with
  | viewer => simp [Policy.isToolDenied, Policy.roleDenyList, Policy.roleDenyReason]
  | employee => simp [Policy.isToolDenied, Policy.roleDenyList, Policy.roleDenyReason]
  | admin => simp [Policy.isToolDenied, Policy.roleDenyList, Policy.roleDenyReason]

/-- Let-free unfolding of `askAfterRbac` for an arbitrary bound user. -/
theorem askAfterRbac_eq (user : Option RBAC.User) (policy : Policy.PolicyConfig)
    (i : Policy.AskInput) :
    Policy.askAfterRbac user policy i =
      (match Policy.isToolDenied (Policy.toolNameOf i)
          ((user.map (fun u => u.role)).getD .viewer) policy with
       | some r => .deny r
       | none =>
         match Policy.containsDeniedPattern i.metaSerialized policy with
         | some r => .deny r
         | none =>
           if policy.require_approval_tools.contains (Policy.toolNameOf i)
           then .pending
           else if (user.map (fun u => u.role)) == some RBAC.Role.admin
           then .allow
           else .unresolved) := rfl

/-- Rules 2–6 of `askAfterRbac` as one nested short-circuit conditional. -/
theorem askAfterRbac_eq_chain (user : Option RBAC.User)
    (policy : Policy.PolicyConfig) (i : Policy.AskInput) :
    Policy.askAfterRbac user policy i =
      (if policy.deny_tools.contains (Policy.toolNameOf i) then
        .deny ("Tool \"" ++ Policy.toolNameOf i ++ "\" is denied by policy")
      else if (Policy.roleDenyList ((user.map (fun u => u.role)).getD .viewer)
          policy).contains (Policy.toolNameOf i) then
        .deny (Policy.roleDenyReason (Policy.toolNameOf i)
          ((user.map (fun u => u.role)).getD .viewer))
      else if (Policy.specFirstPattern i.metaSerialized policy).isSome then
        .deny ("Input contains denied pattern: \""
          ++ (Policy.specFirstPattern i.metaSerialized policy).getD "" ++ "\"")
      else if policy.require_approval_tools.contains (Policy.toolNameOf i) then
        .pending
      else if (user.map (fun u => u.role)) == some RBAC.Role.admin then
        .allow
      else .unresolved) := by
  rw [askAfterRbac_eq, isToolDenied_eq_rules, containsDeniedPattern_eq_spec]
  by_cases h2 : Policy.toolNameOf i ∈ policy.deny_tools
  · simp [h2]
  · by_cases h3 : Policy.toolNameOf i
        ∈ Policy.roleDenyList ((user.map (fun u => u.role)).getD .viewer) policy
    · simp [h2, h3]
    · cases hsp : Policy.specFirstPattern i.metaSerialized policy with
      | some p => simp [h2, h3, hsp]
      | none => simp [h2, h3, hsp]

/-- Unfolding of `permission.ask` with a bound user: the RBAC viewer check
runs first, then rules 2–6. -/
theorem permissionAsk_some (u : RBAC.User) (policy : Policy.PolicyConfig)
    (i : Policy.AskInput) :
    Policy.permissionAsk (some u) policy i =
      (if u.role == RBAC.Role.viewer && !(RBAC.can (some u) "tool.execute") then
        .deny ("Role \"" ++ Policy.roleStr u.role ++ "\" cannot execute tools")
      else Policy.askAfterRbac (some u) policy i) := rfl

/-- C1: the ask-phase policy evaluation equals first-match evaluation of
the specification's ordered rule list — (1) viewer without "tool.execute"
deny, (2) global deny list, (3) role-specific deny list, (4)
case-insensitive pattern match on serialized metadata, (5)
approval-required left pending, (6) admin allow, otherwise unresolved.
The first rule that fires determines the outcome; later rules are not
consulted. -/
theorem c1_ask_chain_first_match :
    ∀ (user : Option RBAC.User) (policy : Policy.PolicyConfig)
      (i : Policy.AskInput),
      Policy.permissionAsk user policy i
        = Policy.firstFiring (Policy.askRules user policy i) := by
  intro user policy i
  cases user with
  | none =>
    rw [permissionAsk_none, askAfterRbac_eq_chain]
    simp [Policy.askRules, Policy.firstFiring]
  | some u =>
    have hcanViewer : u.role = RBAC.Role.viewer →
        RBAC.can (some u) "tool.execute" = false := by
      intro hrole
      simp [RBAC.can, RBAC.hasRole, RBAC.requiredRole, RBAC.CAPABILITIES,
        hrole, RBAC.HIERARCHY]
    cases hrole : u.role with
    | viewer =>
      rw [permissionAsk_some, hrole, hcanViewer hrole]
      simp [Policy.askRules, Policy.firstFiring, Policy.roleStr, hrole,
        hcanViewer hrole]
    | employee =>
      rw [permissionAsk_some, askAfterRbac_eq_chain, hrole]
      simp [Policy.askRules, Policy.firstFiring, hrole]
    | admin =>
      rw [permissionAsk_some, askAfterRbac_eq_chain, hrole]
      simp [Policy.askRules, Policy.firstFiring, hrole]

/-- Enumerated flat-mapping of the per-task renderer is the ordered
concatenation of per-task sections. -/
theorem enumFrom_flatMap_renderTask :
    ∀ (ps : List (ParallelTask.TaskSpec × Except String ParallelTask.TaskValue))
      (i : Nat),
      (List.enumFrom i ps).flatMap
          (fun p => ParallelTask.renderTask p.1 p.2.1 p.2.2)
        = ParallelTask.orderedSections i ps := by
  intro ps
  induction ps with
  | nil => intro i; rfl
  | cons hd rest ih =>
    intro i
    rw [List.enumFrom_cons, List.flatMap_cons, ih (i + 1)]
    rfl

/-- The fulfilled and rejected counts of a settled list partition it. -/
theorem length_filter_isOk_add
    (results : List (Except String ParallelTask.TaskValue)) :
    (results.filter (fun r => r.isOk)).length
      + (results.filter (fun r => !r.isOk)).length = results.length := by
  induction results with
  | nil => rfl
  | cons r rest ih =>
    cases hr : r.isOk <;> simp [List.filter, hr] <;> omega

/-- A rejected task's error line occurs among the ordered sections. -/
theorem mem_orderedSections_error :
    ∀ (ps : List (ParallelTask.TaskSpec × Except String ParallelTask.TaskValue))
      (i0 : Nat) (t : ParallelTask.TaskSpec) (e : String),
      (t, Except.error e) ∈ ps →
      ("ERROR: " ++ e) ∈ ParallelTask.orderedSections i0 ps := by
  intro ps
  induction ps with
  | nil => intro i0 t e h; exact absurd h (List.not_mem_nil _)
  | cons hd rest ih =>
    intro i0 t e h
    rcases List.mem_cons.mp h with heq | hmem
    · rw [← heq]
      apply List.mem_append_left
      simp [ParallelTask.renderTask]
    · exact List.mem_append_right _ (ih (i0 + 1) t e hmem)

/-- The `i`-th pair of a zip of equal-length lists is a member. -/
theorem getD_pair_mem_zip (tasks : List ParallelTask.TaskSpec)
    (results : List (Except String ParallelTask.TaskValue))
    (i : Nat) (h1 : i < tasks.length) (h2 : i < results.length) :
    (tasks.getD i { description := "", prompt := "", subagent_type := "" },
      results.getD i (.error "")) ∈ tasks.zip results := by
  have hlen : i < (tasks.zip results).length := by
    rw [List.length_zip]
    omega
  have hmem := List.getElem_mem hlen
  rw [List.getElem_zip] at hmem
  rw [List.getD_eq_getElem tasks _ h1, List.getD_eq_getElem results _ h2]
  exact hmem

/-- C4: batch aggregation preserves input order and reports per-task
outcomes: for an n-task batch with k rejections, succeeded = n − k and
failed = k; the output lists the per-task sections in input order; a
fulfilled task emits the last text-bearing output fragment (a later text
fragment supersedes earlier ones); a rejected task's failure message is
surfaced verbatim and logged with its description and agent type. -/
theorem c4_batch_aggregation (tasks : List ParallelTask.TaskSpec)
    (results : List (Except String ParallelTask.TaskValue))
    (hlen : results.length = tasks.length) :
    ((ParallelTask.aggregate tasks results).succeeded
        = tasks.length - (results.filter (fun r => !r.isOk)).length
      ∧ (ParallelTask.aggregate tasks results).failed
        = (results.filter (fun r => !r.isOk)).length
      ∧ (ParallelTask.aggregate tasks results).succeeded
          + (ParallelTask.aggregate tasks results).failed = tasks.length)
    ∧ (ParallelTask.aggregate tasks results).output
        = ("Parallel execution of " ++ toString tasks.length ++ " tasks:")
          :: ParallelTask.orderedSections 0 (tasks.zip results)
    ∧ (∀ (parts : List ParallelTask.Part) (s : String),
        ParallelTask.lastTextPart (parts ++ [{ type := "text", text := s }]) = s)
    ∧ (∀ (createOutcome : Nat → Except String String)
         (promptOutcome : Nat → Except String (List ParallelTask.Part))
         (task : ParallelTask.TaskSpec) (agent : ParallelTask.AgentInfo)
         (idx : Nat) (sid : String) (parts : List ParallelTask.Part),
        createOutcome idx = .ok sid → promptOutcome idx = .ok parts →
        (ParallelTask.runTask createOutcome promptOutcome task agent idx).1
          = .ok { sessionID := sid, description := task.description,
                  agent := agent.name, text := ParallelTask.lastTextPart parts })
    ∧ (∀ i, i < tasks.length → ∀ e,
        results.getD i (.error "") = .error e →
        ("ERROR: " ++ e) ∈ (ParallelTask.aggregate tasks results).output
        ∧ ((tasks.getD i { description := "", prompt := "", subagent_type := "" }).description,
            (tasks.getD i { description := "", prompt := "", subagent_type := "" }).subagent_type,
            e) ∈ (ParallelTask.aggregate tasks results).loggedErrors) := by
  have hsum := length_filter_isOk_add results
  have houtput : (ParallelTask.aggregate tasks results).output
      = ("Parallel execution of " ++ toString tasks.length ++ " tasks:")
        :: (List.enumFrom 0 (tasks.zip results)).flatMap
            (fun p => ParallelTask.renderTask p.1 p.2.1 p.2.2) := rfl
  refine ⟨⟨?_, rfl, ?_⟩, ?_, ?_, ?_, ?_⟩
  · show (results.filter (fun r => r.isOk)).length
      = tasks.length - (results.filter (fun r => !r.isOk)).length
    omega
  · show (results.filter (fun r => r.isOk)).length
      + (results.filter (fun r => !r.isOk)).length = tasks.length
    omega
  · rw [houtput, enumFrom_flatMap_renderTask]
  · intro parts s
    simp [ParallelTask.lastTextPart, List.reverse_append, List.find?]
  · intro createOutcome promptOutcome task agent idx sid parts hc hp
    simp [ParallelTask.runTask, hc, hp]
  · intro i hi e he
    have hz := getD_pair_mem_zip tasks results i hi (by omega)
    rw [he] at hz
    constructor
    · rw [houtput, enumFrom_flatMap_renderTask]
      exact List.mem_cons_of_mem _ (mem_orderedSections_error _ 0 _ e hz)
    · show _ ∈ (tasks.zip results).filterMap _
      exact List.mem_filterMap.mpr ⟨_, hz, rfl⟩

/-- Witness for C4: a 5-task batch where task 3 fails and the rest succeed
yields succeeded = 4, failed = 1, the failure message surfaced verbatim
and logged with the task's description and agent type. -/
theorem c4_batch_witness :
    (ParallelTask.aggregate
        [{ description := "t1", prompt := "p1", subagent_type := "gen" },
         { description := "t2", prompt := "p2", subagent_type := "gen" },
         { description := "t3", prompt := "p3", subagent_type := "gen" },
         { description := "t4", prompt := "p4", subagent_type := "gen" },
         { description := "t5", prompt := "p5", subagent_type := "gen" }]
        [.ok { sessionID := "s1", description := "t1", agent := "gen", text := "r1" },
         .ok { sessionID := "s2", description := "t2", agent := "gen", text := "r2" },
         .error "boom",
         .ok { sessionID := "s4", description := "t4", agent := "gen", text := "r4" },
         .ok { sessionID := "s5", description := "t5", agent := "gen", text := "r5" }]).succeeded
      = 4
    ∧ (ParallelTask.aggregate
        [{ description := "t1", prompt := "p1", subagent_type := "gen" },
         { description := "t2", prompt := "p2", subagent_type := "gen" },
         { description := "t3", prompt := "p3", subagent_type := "gen" },
         { description := "t4", prompt := "p4", subagent_type := "gen" },
         { description := "t5", prompt := "p5", subagent_type := "gen" }]
        [.ok { sessionID := "s1", description := "t1", agent := "gen", text := "r1" },
         .ok { sessionID := "s2", description := "t2", agent := "gen", text := "r2" },
         .error "boom",
         .ok { sessionID := "s4", description := "t4", agent := "gen", text := "r4" },
         .ok { sessionID := "s5", description := "t5", agent := "gen", text := "r5" }]).failed
      = 1
    ∧ ("ERROR: " ++ "boom") ∈ (ParallelTask.aggregate
        [{ description := "t1", prompt := "p1", subagent_type := "gen" },
         { description := "t2", prompt := "p2", subagent_type := "gen" },
         { description := "t3", prompt := "p3", subagent_type := "gen" },
         { description := "t4", prompt := "p4", subagent_type := "gen" },
         { description := "t5", prompt := "p5", subagent_type := "gen" }]
        [.ok { sessionID := "s1", description := "t1", agent := "gen", text := "r1" },
         .ok { sessionID := "s2", description := "t2", agent := "gen", text := "r2" },
         .error "boom",
         .ok { sessionID := "s4", description := "t4", agent := "gen", text := "r4" },
         .ok { sessionID := "s5", description := "t5", agent := "gen", text := "r5" }]).output
    ∧ ("t3", "gen", "boom") ∈ (ParallelTask.aggregate
        [{ description := "t1", prompt := "p1", subagent_type := "gen" },
         { description := "t2", prompt := "p2", subagent_type := "gen" },
         { description := "t3", prompt := "p3", subagent_type := "gen" },
         { description := "t4", prompt := "p4", subagent_type := "gen" },
         { description := "t5", prompt := "p5", subagent_type := "gen" }]
        [.ok { sessionID := "s1", description := "t1", agent := "gen", text := "r1" },
         .ok { sessionID := "s2", description := "t2", agent := "gen", text := "r2" },
         .error "boom",
         .ok { sessionID := "s4", description := "t4", agent := "gen", text := "r4" },
         .ok { sessionID := "s5", description := "t5", agent := "gen", text := "r5" }]).loggedErrors := by
  refine ⟨?_, ?_, ?_, ?_⟩
  · exact (c4_batch_aggregation _ _ rfl).1.1
  · exact (c4_batch_aggregation _ _ rfl).1.2.1
  · exact ((c4_batch_aggregation
        [{ description := "t1", prompt := "p1", subagent_type := "gen" },
         { description := "t2", prompt := "p2", subagent_type := "gen" },
         { description := "t3", prompt := "p3", subagent_type := "gen" },
         { description := "t4", prompt := "p4", subagent_type := "gen" },
         { description := "t5", prompt := "p5", subagent_type := "gen" }]
        [.ok { sessionID := "s1", description := "t1", agent := "gen", text := "r1" },
         .ok { sessionID := "s2", description := "t2", agent := "gen", text := "r2" },
         .error "boom",
         .ok { sessionID := "s4", description := "t4", agent := "gen", text := "r4" },
         .ok { sessionID := "s5", description := "t5", agent := "gen", text := "r5" }] rfl).2.2.2.2 2 (by decide) "boom" rfl).1
  · exact ((c4_batch_aggregation
        [{ description := "t1", prompt := "p1", subagent_type := "gen" },
         { description := "t2", prompt := "p2", subagent_type := "gen" },
         { description := "t3", prompt := "p3", subagent_type := "gen" },
         { description := "t4", prompt := "p4", subagent_type := "gen" },
         { description := "t5", prompt := "p5", subagent_type := "gen" }]
        [.ok { sessionID := "s1", description := "t1", agent := "gen", text := "r1" },
         .ok { sessionID := "s2", description := "t2", agent := "gen", text := "r2" },
         .error "boom",
         .ok { sessionID := "s4", description := "t4", agent := "gen", text := "r4" },
         .ok { sessionID := "s5", description := "t5", agent := "gen", text := "r5" }] rfl).2.2.2.2 2 (by decide) "boom" rfl).2

/-- If one pattern pass produced no findings, it left the text unchanged:
every replacement-callback invocation records a finding, so an empty
finding list means the very first search already failed. -/
theorem replLoop_empty_findings (p : Redaction.Pattern) (s : List Char) :
    ∀ (fuel : Nat) (suffix : List Char) (pos : Nat) (prev : Option Char),
      (Redaction.replLoop p s fuel suffix pos prev).2 = [] →
      (Redaction.replLoop p s fuel suffix pos prev).1 = suffix := by
  intro fuel suffix pos prev
  cases fuel with
  | zero => intro _; rfl
  | succ f =>
    intro h
    rw [Redaction.replLoop] at h ⊢
    cases hf : Redaction.findFrom p.ci p.ml p.re suffix pos prev with
    | none => rfl
    | some m =>
      exfalso
      rw [hf] at h
      simp only [] at h
      split at h
      · split at h
        · simp at h
        · simp at h
      · simp at h

/-- `applyPattern` with no findings leaves the text unchanged. -/
theorem applyPattern_empty_findings (p : Redaction.Pattern) (t : List Char) :
    (Redaction.applyPattern p t).2 = [] → (Redaction.applyPattern p t).1 = t :=
  replLoop_empty_findings p t (t.length + 1) t 0 none

/-- Running a pattern list with no findings at all leaves the text
unchanged. -/
theorem runPatterns_empty_findings :
    ∀ (ps : List Redaction.Pattern) (t : List Char),
      (Redaction.runPatterns ps t).2 = [] →
      (Redaction.runPatterns ps t).1 = t := by
  intro ps
  induction ps with
  | nil => intro t _; rfl
  | cons p rest ih =>
    intro t h
    rcases hap : Redaction.applyPattern p t with ⟨t1, fs1⟩
    rcases hrp : Redaction.runPatterns rest t1 with ⟨t2, fs2⟩
    rw [Redaction.runPatterns, hap] at h ⊢
    simp only [] at h ⊢
    rw [hrp] at h ⊢
    simp only [] at h ⊢
    rcases List.append_eq_nil.mp h with ⟨hfs1, hfs2⟩
    have ht1 : t1 = t := by
      have hstep := applyPattern_empty_findings p t
      rw [hap] at hstep
      exact hstep hfs1
    have ht2 : t2 = t1 := by
      have hstep := ih t1
      rw [hrp] at hstep
      exact hstep hfs2
    rw [ht2, ht1]

/-- Rebuilding a string from its own characters is the identity. -/
theorem string_mk_data (t : String) : String.mk t.data = t := by
  cases t
  rfl

/-- The findings of a scan are the accumulated per-pattern findings. -/
theorem redactSecrets_findings (t : String) :
    (Redaction.redactSecrets t).findings
      = (Redaction.runPatterns Redaction.SECRET_PATTERNS t.data).2 := by
  show (let pair := Redaction.runPatterns Redaction.SECRET_PATTERNS t.data;
      ({ redacted := String.mk pair.1, findings := pair.2 } : Redaction.ScanResult)).findings
    = (Redaction.runPatterns Redaction.SECRET_PATTERNS t.data).2
  generalize Redaction.runPatterns Redaction.SECRET_PATTERNS t.data = pair
  rfl

/-- The redacted text of a scan is the fold of all pattern passes. -/
theorem redactSecrets_redacted (t : String) :
    (Redaction.redactSecrets t).redacted
      = String.mk (Redaction.runPatterns Redaction.SECRET_PATTERNS t.data).1 := by
  show (let pair := Redaction.runPatterns Redaction.SECRET_PATTERNS t.data;
      ({ redacted := String.mk pair.1, findings := pair.2 } : Redaction.ScanResult)).redacted
    = String.mk (Redaction.runPatterns Redaction.SECRET_PATTERNS t.data).1
  generalize Redaction.runPatterns Redaction.SECRET_PATTERNS t.data = pair
  rfl

/-- C7 (amended): redaction is idempotent on already-clean text — when a
scan reports no findings it also leaves the text unchanged, so scanning
the redacted output again still yields zero findings.  (On text that does
contain a secret, the redacted output can itself still match a pattern;
see the counterexample.) -/
theorem c7_redaction_idempotent_on_clean :
    ∀ t : String, (Redaction.redactSecrets t).findings = [] →
      (Redaction.redactSecrets t).redacted = t
      ∧ (Redaction.redactSecrets
          (Redaction.redactSecrets t).redacted).findings = [] := by
  intro t h
  rw [redactSecrets_findings] at h
  have hout : (Redaction.runPatterns Redaction.SECRET_PATTERNS t.data).1 = t.data :=
    runPatterns_empty_findings _ _ h
  have hred : (Redaction.redactSecrets t).redacted = t := by
    rw [redactSecrets_redacted, hout, string_mk_data t]
  refine ⟨hred, ?_⟩
  rw [hred, redactSecrets_findings]
  exact h

set_option maxHeartbeats 2000000 in
/-- Witness for C7 (amended): clean text scans with zero findings, so its
rescan also has zero findings and the text passes through unchanged. -/
theorem c7_redaction_clean_witness :
    (Redaction.redactSecrets "git log").redacted = "git log"
    ∧ (Redaction.redactSecrets
        (Redaction.redactSecrets "git log").redacted).findings = [] :=
  c7_redaction_idempotent_on_clean "git log" (by decide)

set_option maxHeartbeats 4000000 in
/-- Counterexample for C7 as stated: scanning the redacted output of
`"PASSWORD=hunter2"` again is NOT finding-free — the Env Secret pattern
matches the line `PASSWORD=[REDACTED:Env Secret]` itself, so the rescan
reports one finding instead of none. -/
theorem c7_redaction_counterexample :
    (Redaction.redactSecrets
        (Redaction.redactSecrets "PASSWORD=hunter2").redacted).findings
      = [{ type := "Env Secret", offset := 0 }]
    ∧ (Redaction.redactSecrets
        (Redaction.redactSecrets "PASSWORD=hunter2").redacted).findings ≠ [] := by
  have h : (Redaction.redactSecrets
      (Redaction.redactSecrets "PASSWORD=hunter2").redacted).findings
      = [{ type := "Env Secret", offset := 0 }] := by decide
  refine ⟨h, ?_⟩
  rw [h]
  simp
